import Mathlib

/-!
Shallow embedding of the CLI parameter validation/normalization layer
(`parseArgv` and its per-field validator functions) of the icon-generator
package.  JavaScript dynamic values are modelled by the inductive `JVal`;
the mutable `argv` record (a JS object used both as raw input and as the
output record) is modelled as a total map from field names to `JVal`;
`process.exit(1)` via `die(msg)` is modelled by returning the record state
at the moment of termination together with `some msg`.  Filesystem calls
(`existsSync`, `lstatSync`, `getPngSize`), the path functions of `node:path`
and `untildify`, and the externally defined catalogs (`modes`, `generators`,
`defaultParams`, `appDir`) are collaborators outside the validated source;
they are passed in as parameters (`Env`, `DefaultParams`, `modesList`,
`genList`), so every theorem quantifies over them unless it needs a
concrete instance.
-/

/-- A JavaScript runtime value as it can appear in the `argv` record:
`undefined`, `null`, a string, a number (modelled as `Rat`; the inputs the
validators accept are decimal literals, exactly representable), an array of
strings, or an array of numbers.  The arrays that actually flow through the
validators are homogeneous, so the two array shapes suffice. -/
inductive JVal where
  | undef
  | null
  | str (s : String)
  | num (q : Rat)
  | arrS (l : List String)
  | arrN (l : List Rat)
  deriving DecidableEq, Repr

/-- JavaScript truthiness of a `JVal`: `undefined`, `null`, the empty
string and the number `0` are falsy; arrays are always truthy. -/
def truthy : JVal → Bool
  | JVal.undef => false
  | .null => false
  | .str s => s ≠ ""
  | .num q => q ≠ 0
  | .arrS _ => true
  | .arrN _ => true

/-- JavaScript `ToString` for a number.  All numbers produced and consumed
by the validators are integers, rendered in decimal exactly as JS does;
the non-integer fallback is never exercised by the code paths modelled
here. -/
def numToStr (q : Rat) : String :=
  if q.den = 1 then toString q.num else toString q

/-- JavaScript `ToString` coercion of a `JVal`, as applied by `parseInt`,
`parseFloat`, string concatenation and `RegExp.test`: arrays join their
elements with `","`. -/
def jsToStr : JVal → String
  | JVal.undef => "undefined"
  | .null => "null"
  | .str s => s
  | .num q => numToStr q
  | .arrS l => String.intercalate "," l
  | .arrN l => String.intercalate "," (l.map numToStr)

/-- The characters `parseInt`/`parseFloat` skip as leading whitespace. -/
def jsWhitespace (c : Char) : Bool :=
  c = ' ' ∨ c = '\t' ∨ c = '\n' ∨ c = '\r'

/-- Value of a list of decimal digit characters. -/
def digitsVal (l : List Char) : Nat :=
  l.foldl (fun a c => a * 10 + (c.toNat - '0'.toNat)) 0

/-- `List`-level split of a character list at every comma: the semantics
of JavaScript `String.prototype.split(',')`, written by structural
recursion so that it reduces inside the kernel.  Empty segments are
preserved and the empty input yields one empty segment, as in JS. -/
def splitCommaChars : List Char → List (List Char)
  | [] => [[]]
  | c :: rest =>
    let r := splitCommaChars rest
    if c = ',' then [] :: r
    else (c :: r.headD []) :: r.tail

/-- JavaScript `s.split(',')`. -/
def jsSplitComma (s : String) : List String :=
  (splitCommaChars s.data).map (fun l => String.mk l)

/-- JavaScript `s.includes(pat)`: substring containment, by structural
recursion over the haystack. -/
def hasInfix (pat : List Char) (l : List Char) : Bool :=
  if pat.isPrefixOf l then true
  else
    match l with
    | [] => false
    | _ :: rest => hasInfix pat rest

/-- JavaScript `parseInt(s, 10)`: skip leading whitespace, an optional
sign, then the longest prefix of decimal digits; `NaN` (here `none`) if
that prefix is empty. -/
def parseIntJS (s : String) : Option Int :=
  let l := s.data.dropWhile jsWhitespace
  let signAndRest : Int × List Char :=
    match l with
    | '-' :: rest => (-1, rest)
    | '+' :: rest => (1, rest)
    | _ => (1, l)
  let ds := signAndRest.2.takeWhile Char.isDigit
  if ds.isEmpty then none
  else some (signAndRest.1 * (digitsVal ds : Int))

/-- JavaScript `parseFloat(s)` on the decimal literals the validators can
meet: skip whitespace, optional sign, integer digits, optional fraction,
optional exponent (an `e` with no digits after it is ignored, as in JS);
`NaN` (here `none`) when no digit is found.  The value
`sign * (ip + fp / 10^k) * 10^exp` is built with `mkRat` over integer
arithmetic so that it reduces inside the kernel.  The `Infinity` literal is
not representable in `Rat` and is modelled as unparseable; both readings
make the ratio validator fatal, so no modelled behavior depends on it. -/
def parseFloatJS (s : String) : Option Rat :=
  let l := s.data.dropWhile jsWhitespace
  let signAndRest : Int × List Char :=
    match l with
    | '-' :: rest => (-1, rest)
    | '+' :: rest => (1, rest)
    | _ => (1, l)
  let ip := signAndRest.2.takeWhile Char.isDigit
  let l2 := signAndRest.2.drop ip.length
  let fracAndRest : List Char × List Char :=
    match l2 with
    | '.' :: rest => (rest.takeWhile Char.isDigit, rest.drop (rest.takeWhile Char.isDigit).length)
    | _ => ([], l2)
  let fp := fracAndRest.1
  if ip.isEmpty ∧ fp.isEmpty then none
  else
    let mantNum : Int :=
      signAndRest.1 * ((digitsVal ip : Int) * (10 : Int) ^ fp.length + (digitsVal fp : Int))
    let expPart : Int :=
      match fracAndRest.2 with
      | 'e' :: rest => expDigits rest
      | 'E' :: rest => expDigits rest
      | _ => 0
    if 0 ≤ expPart then
      some (mkRat (mantNum * (10 : Int) ^ expPart.toNat) ((10 : Nat) ^ fp.length))
    else
      some (mkRat mantNum ((10 : Nat) ^ fp.length * (10 : Nat) ^ (-expPart).toNat))
where
  /-- Exponent digits after `e`/`E`: optional sign then digits; `0` when
  no digit follows. -/
  expDigits (l : List Char) : Int :=
    let signAndRest : Int × List Char :=
      match l with
      | '-' :: rest => (-1, rest)
      | '+' :: rest => (1, rest)
      | _ => (1, l)
    let ds := signAndRest.2.takeWhile Char.isDigit
    if ds.isEmpty then 0 else signAndRest.1 * (digitsVal ds : Int)

/-- The `argv` record: a JS object mapping parameter names to values.
`parseArgv` receives it already populated with the raw inputs and mutates
it in place; absent keys read as `undefined`. -/
def Argv : Type := String → JVal

/-- `argv[name] = v`. -/
def aset (a : Argv) (n : String) (v : JVal) : Argv :=
  fun m => if m = n then v else a m

/-- A validator's outcome: the record state when the function returned (or
when `die` fired) together with `some msg` when `die(msg)` terminated the
process. -/
def VResult : Type := Argv × Option String

/-- `die(msg)`: warn and `process.exit(1)`, capturing the record state at
that moment. -/
def die (msg : String) (a : Argv) : VResult := (a, some msg)

/-- Normal return from a validator. -/
def ok (a : Argv) : VResult := (a, none)

/-- The external collaborators of the path-checking validators:
`node:fs`, `node:path`, `untildify`, the PNG-size probe, and the process /
application directories.  `getPngSize` returns `(0, 0)` when the file is
not a PNG. -/
structure Env where
  existsSync : String → Bool
  isDirectory : String → Bool
  getPngSize : String → Nat × Nat
  cwd : String
  appDir : String
  untildify : String → String
  isAbsolute : String → Bool
  resolve : String → String → String
  normalize : String → String
  sampleIconPath : String

/-- The `defaultParams` table (defined in a module outside the validated
source); only the fields the validators read are modelled. -/
structure DefaultParams where
  quality : Int
  splashscreenIconRatio : Rat
  pngColor : String
  splashscreenColor : String
  svgColor : String

/-- `profile(value, argv)`: resolve `~` and relative paths against the
working directory; fatal when the resolved path does not exist, fatal when
the value does not end in `.json` and is not a directory; only then store
the resolved path. -/
def profile (env : Env) (value : JVal) (argv : Argv) : VResult :=
  if truthy value = false then ok argv
  else match value with
    | .str s =>
      let profilePath := env.resolve env.cwd (env.untildify s)
      if env.existsSync profilePath = false then
        die "Profile param does not point to a file or folder that exists!" argv
      else if s.endsWith ".json" = false ∧ env.isDirectory profilePath = false then
        die ("Specified profile (" ++ s ++ ") is not a .json file") argv
      else ok (aset argv "profile" (.str profilePath))
    | _ => die "TypeError: value is not a string" argv

/-- `mode(value, argv)`: empty means the full mode catalog; a
comma-separated list containing `"all"` also means the full catalog;
otherwise fatal on any unknown entry, else store the split list. -/
def mode (modesList : List String) (value : JVal) (argv : Argv) : VResult :=
  if truthy value = false then ok (aset argv "mode" (.arrS modesList))
  else match value with
    | .str s =>
      let list := jsSplitComma s
      if list.contains "all" then ok (aset argv "mode" (.arrS modesList))
      else if list.any (fun m => modesList.contains m = false) then
        die ("Invalid mode requested: \"" ++ s ++ "\"") argv
      else ok (aset argv "mode" (.arrS list))
    | _ => die "TypeError: value.split is not a function" argv

/-- `include(value, argv)`: empty returns without touching the record; a
value containing `"all"` (substring test on a string, membership test on
an array) stores the full mode catalog; otherwise `value.some` validates
every entry against the catalog, fatal on an unknown one, and on success
returns WITHOUT storing anything (unlike `mode`/`assets`).  A truthy
string without `"all"` reaches `value.some`, which only arrays have. -/
def include' (modesList : List String) (value : JVal) (argv : Argv) : VResult :=
  if truthy value = false then ok argv
  else match value with
    | .arrS l =>
      if l.contains "all" then ok (aset argv "include" (.arrS modesList))
      else if l.any (fun m => modesList.contains m = false) then
        die ("Invalid include requested: \"" ++ String.intercalate "," l ++ "\"") argv
      else ok argv
    | .str s =>
      if hasInfix ("all".data) s.data then ok (aset argv "include" (.arrS modesList))
      else die "TypeError: value.some is not a function" argv
    | .arrN l =>
      if l.isEmpty then ok argv
      else die ("Invalid include requested: \"" ++ String.intercalate "," (l.map numToStr) ++ "\"") argv
    | _ => die "TypeError: value.includes is not a function" argv

/-- `quality(value, argv)`: empty stores the default; otherwise
`parseInt(value, 10)`, fatal on `NaN` and outside `[1, 12]`, else store
the integer. -/
def quality (dp : DefaultParams) (value : JVal) (argv : Argv) : VResult :=
  if truthy value = false then ok (aset argv "quality" (.num (dp.quality : Rat)))
  else match parseIntJS (jsToStr value) with
    | none => die "Invalid quality level number specified" argv
    | some numeric =>
      if numeric < 1 ∨ numeric > 12 then
        die ("Invalid quality level specified (" ++ jsToStr value ++ ") - should be between 1 - 12") argv
      else ok (aset argv "quality" (.num (numeric : Rat)))

/-- `filter(value)`: when truthy, the value must be a key of the generator
catalog; validation only, nothing is stored. -/
def filter (genList : List String) (value : JVal) (argv : Argv) : VResult :=
  if truthy value = false then ok argv
  else match value with
    | .str s =>
      if genList.contains s then ok argv
      else die ("Unknown filter value specified (" ++ s ++ "); there is no such generator") argv
    | _ => die ("Unknown filter value specified (" ++ jsToStr value ++ "); there is no such generator") argv

/-- The element-wise `parseInt` mapping of `padding`'s input:
`Array.isArray(value) ? value : value.split(',')` then `parseInt(val, 10)`
on each element; `none` signals a truthy non-array non-string, on which JS
would throw at `value.split`. -/
def paddingSizes : JVal → Option (List (Option Int))
  | .str s => some ((jsSplitComma s).map parseIntJS)
  | .arrS l => some (l.map parseIntJS)
  | .arrN l => some (l.map (fun q => parseIntJS (numToStr q)))
  | _ => none

/-- The `forEach` body of `padding`: the first element that is `NaN` or
negative, in order, yields that check's message. -/
def checkSizes : List (Option Int) → Option String
  | [] => none
  | none :: _ => some "Invalid padding specified (not numbers)"
  | some n :: rest =>
    if n < 0 then some "Invalid padding specified (not all positive numbers)"
    else checkSizes rest

/-- `padding(value, argv)`: empty stores `[0, 0]`; otherwise split/array
elements through `parseInt`; fatal when more than two values, on any `NaN`
and on any negative; one value is duplicated to both axes, otherwise the
list is stored as is. -/
def padding (value : JVal) (argv : Argv) : VResult :=
  if truthy value = false then ok (aset argv "padding" (.arrN [0, 0]))
  else match paddingSizes value with
    | none => die "TypeError: value.split is not a function" argv
    | some sizes =>
      if sizes.length > 2 then die "Invalid padding specified" argv
      else match checkSizes sizes with
        | some msg => die msg argv
        | none =>
          let ints := sizes.filterMap id
          ok (aset argv "padding" (.arrN
            (if sizes.length = 1 then [(ints.headD 0 : Rat), (ints.headD 0 : Rat)]
             else ints.map (fun n => (n : Rat)))))

/-- `parseIconPath(value)`: after `~`-expansion, an absolute path must
exist as is; otherwise try the working directory, then the application
directory; `null` when nothing exists. -/
def parseIconPath (env : Env) (value : String) : Option String :=
  let p := env.untildify value
  if env.isAbsolute p then
    if env.existsSync p then some p else none
  else
    let icon1 := env.resolve env.cwd p
    if env.existsSync icon1 then some icon1
    else
      let icon2 := env.resolve env.appDir p
      if env.existsSync icon2 then some icon2 else none

/-- `icon(value, argv)`: empty falls back to the bundled sample icon (with
a non-fatal warning).  Otherwise `argv.icon = parseIconPath(value)` is
assigned FIRST; fatal when it is `null`, fatal when the PNG probe returns
`0×0`, fatal below `64×64` — the record already holds the assigned value
at each of these exits. -/
def icon (env : Env) (value : JVal) (argv : Argv) : VResult :=
  if truthy value = false then
    ok (aset argv "icon" (.str (env.normalize env.sampleIconPath)))
  else match value with
    | .str s =>
      match parseIconPath env s with
      | none =>
        die ("Path to source icon file does not exists: \"" ++ s ++ "\"")
          (aset argv "icon" .null)
      | some p =>
        let argv1 := aset argv "icon" (.str p)
        let wh := env.getPngSize p
        if wh.1 = 0 ∧ wh.2 = 0 then die "Icon source is not a PNG file!" argv1
        else if wh.1 < 64 ∨ wh.2 < 64 then
          die "Icon source file does not have the minimum 64x64px resolution" argv1
        else ok argv1
    | _ => die "TypeError: value is not a string" argv

/-- `background(value, argv)`: empty returns untouched.  Otherwise
`argv.background = resolve(appDir, untildify(value))` is assigned FIRST;
fatal when the path does not exist, when the PNG probe returns `0×0`, or
below `128×128` — the record already holds the assigned path at each of
these exits. -/
def background (env : Env) (value : JVal) (argv : Argv) : VResult :=
  if truthy value = false then ok argv
  else match value with
    | .str s =>
      let p := env.resolve env.appDir (env.untildify s)
      let argv1 := aset argv "background" (.str p)
      if env.existsSync p = false then
        die ("Path to background source file does not exists: \"" ++ s ++ "\"") argv1
      else
        let wh := env.getPngSize p
        if wh.1 = 0 ∧ wh.2 = 0 then die "Background source file is not a PNG file!" argv1
        else if wh.1 < 128 ∨ wh.2 < 128 then
          die "Background source file does not have the minimum 128x128px resolution" argv1
        else ok argv1
    | _ => die "TypeError: value is not a string" argv

/-- `value.length` as JS sees it: defined for strings and arrays,
`undefined` (here `none`) otherwise, which fails the color length check. -/
def jsLength : JVal → Option Nat
  | .str s => some s.length
  | .arrS l => some l.length
  | .arrN l => some l.length
  | _ => none

/-- The regex `/^[0-9A-Fa-f]+$/` applied to the `ToString` of the value. -/
def isHexStr (s : String) : Bool :=
  s ≠ "" ∧ s.data.all (fun c => ('0' ≤ c ∧ c ≤ '9') ∨ ('A' ≤ c ∧ c ≤ 'F') ∨ ('a' ≤ c ∧ c ≤ 'f'))

/-- `getColorParser(name, defaultValue)`: the returned validator stores
`argv.themeColor || defaultValue` verbatim when the value is falsy (no
check, no `#`); otherwise fatal unless `value.length` is 3 or 6 and the
value passes the hex regex, in which case `'#' + value` is stored. -/
def getColorParser (name : String) (defaultValue : JVal) (value : JVal) (argv : Argv) : VResult :=
  if truthy value = false then
    ok (aset argv name (if truthy (argv "themeColor") then argv "themeColor" else defaultValue))
  else
    let lenOk : Bool :=
      match jsLength value with
      | some len => len = 3 ∨ len = 6
      | none => false
    if lenOk = false ∨ isHexStr (jsToStr value) = false then
      die ("Invalid " ++ name ++ " color specified: \"" ++ jsToStr value ++ "\"") argv
    else ok (aset argv name (.str ("#" ++ jsToStr value)))

/-- `splashscreenIconRatio(value, argv)`: the guard is
`!value && value !== 0`, so the number `0` is NOT treated as empty; empty
stores the default constant; otherwise `parseFloat`, fatal on `NaN` and
outside `[0, 100]`, else store the number. -/
def splashscreenIconRatio (dp : DefaultParams) (value : JVal) (argv : Argv) : VResult :=
  if truthy value = false ∧ value ≠ .num 0 then
    ok (aset argv "splashscreenIconRatio" (.num dp.splashscreenIconRatio))
  else match parseFloatJS (jsToStr value) with
    | none => die "Invalid splashscreen icon ratio number specified" argv
    | some numeric =>
      if numeric < 0 ∨ numeric > 100 then
        die ("Invalid splashscreen icon ratio specified (" ++ jsToStr value
          ++ ") - should be between 0 - 100") argv
      else ok (aset argv "splashscreenIconRatio" (.num numeric))

/-- `output(value)`: required; fatal when empty, nothing stored. -/
def output (value : JVal) (argv : Argv) : VResult :=
  if truthy value = false then die "The \"output\" param is required" argv
  else ok argv

/-- `assets(value, argv)`: empty stores `[]`; `"all"` in the split list
stores the full mode catalog; otherwise fatal on any unknown entry, else
store the split list. -/
def assets (modesList : List String) (value : JVal) (argv : Argv) : VResult :=
  if truthy value = false then ok (aset argv "assets" (.arrS []))
  else match value with
    | .str s =>
      let list := jsSplitComma s
      if list.contains "all" then ok (aset argv "assets" (.arrS modesList))
      else if list.any (fun m => modesList.contains m = false) then
        die ("Invalid assets requested: \"" ++ s ++ "\"") argv
      else ok (aset argv "assets" (.arrS list))
    | _ => die "TypeError: value.split is not a function" argv

/-- The `parsers` registry: parameter name to validator, exactly the keys
of the source object; `none` for an unregistered name. -/
def parsers (env : Env) (dp : DefaultParams) (modesList genList : List String) :
    String → Option (JVal → Argv → VResult)
  | "profile" => some (profile env)
  | "mode" => some (mode modesList)
  | "quality" => some (quality dp)
  | "filter" => some (filter genList)
  | "padding" => some padding
  | "icon" => some (icon env)
  | "background" => some (background env)
  | "splashscreenIconRatio" => some (splashscreenIconRatio dp)
  | "themeColor" => some (getColorParser "themeColor" JVal.undef)
  | "pngColor" => some (getColorParser "pngColor" (.str dp.pngColor))
  | "splashscreenColor" => some (getColorParser "splashscreenColor" (.str dp.splashscreenColor))
  | "svgColor" => some (getColorParser "svgColor" (.str dp.svgColor))
  | "include" => some (include' modesList)
  | "output" => some output
  | "assets" => some (assets modesList)
  | _ => none

/-- `parseArgv(argv, list)`: for each requested name in order, fatal when
no parser is registered, else run `fn(argv[name], argv)` — the same record
is both the raw-value source and the output; the first fatal error stops
the walk with the record state at that moment. -/
def parseArgv (env : Env) (dp : DefaultParams) (modesList genList : List String)
    (argv : Argv) (list : List String) : VResult :=
  match list with
  | [] => ok argv
  | name :: rest =>
    match parsers env dp modesList genList name with
    | none => die ("Invalid command parameter specified (" ++ name ++ ")") argv
    | some fn =>
      match fn (argv name) argv with
      | (argv1, none) => parseArgv env dp modesList genList argv1 rest
      | (argv1, some e) => (argv1, some e)

/-- A record with every key absent, as at the start of a bare invocation. -/
def emptyArgv : Argv := fun _ => JVal.undef

/-- A concrete environment in which no path exists, for counterexamples. -/
def envNoFS : Env :=
  { existsSync := fun _ => false
    isDirectory := fun _ => false
    getPngSize := fun _ => (0, 0)
    cwd := "/cwd"
    appDir := "/app"
    untildify := fun s => s
    isAbsolute := fun s => s.startsWith "/"
    resolve := fun base p => base ++ "/" ++ p
    normalize := fun s => s
    sampleIconPath := "/samples/icongenie-icon.png" }

/-- A concrete default-parameter table for witnesses. -/
def dp0 : DefaultParams :=
  { quality := 80
    splashscreenIconRatio := 40
    pngColor := "000000"
    splashscreenColor := "000000"
    svgColor := "000000" }

/-- A concrete two-entry mode catalog for witnesses. -/
def ml0 : List String := ["spa", "pwa"]

/-!
Frame lemmas: which record entries a validator can touch.  Every
validator except `icon` and `background` calls `die` before any
assignment, so a fatal run leaves the record exactly as it was; `icon`
and `background` assign their own key first but never touch another
key.
-/

/-- From the branch disjunction to the fatal-implies-unchanged form. -/
theorem frame_of_disj {r : VResult} {a : Argv} (hd : r.1 = a ∨ r.2 = none)
    (h : r.2.isSome = true) : r.1 = a := by
  rcases hd with h1 | h2
  · exact h1
  · rw [h2] at h
    simp at h

/-- `profile` either leaves the record unchanged or succeeds. -/
theorem profile_frame (env : Env) (v : JVal) (a : Argv) :
    (profile env v a).1 = a ∨ (profile env v a).2 = none := by
  simp only [profile]
  repeat' split
  all_goals simp [ok, die]

/-- `mode` either leaves the record unchanged or succeeds. -/
theorem mode_frame (ml : List String) (v : JVal) (a : Argv) :
    (mode ml v a).1 = a ∨ (mode ml v a).2 = none := by
  simp only [mode]
  repeat' split
  all_goals simp [ok, die]

/-- `include` either leaves the record unchanged or succeeds. -/
theorem include_frame (ml : List String) (v : JVal) (a : Argv) :
    (include' ml v a).1 = a ∨ (include' ml v a).2 = none := by
  simp only [include']
  repeat' split
  all_goals simp [ok, die]

/-- `quality` either leaves the record unchanged or succeeds. -/
theorem quality_frame (dp : DefaultParams) (v : JVal) (a : Argv) :
    (quality dp v a).1 = a ∨ (quality dp v a).2 = none := by
  simp only [quality]
  repeat' split
  all_goals simp [ok, die]

/-- `filter` either leaves the record unchanged or succeeds. -/
theorem filter_frame (gl : List String) (v : JVal) (a : Argv) :
    (filter gl v a).1 = a ∨ (filter gl v a).2 = none := by
  simp only [filter]
  repeat' split
  all_goals simp [ok, die]

/-- `padding` either leaves the record unchanged or succeeds. -/
theorem padding_frame (v : JVal) (a : Argv) :
    (padding v a).1 = a ∨ (padding v a).2 = none := by
  simp only [padding]
  repeat' split
  all_goals simp [ok, die]

/-- A color validator either leaves the record unchanged or succeeds. -/
theorem color_frame (name : String) (dv : JVal) (v : JVal) (a : Argv) :
    (getColorParser name dv v a).1 = a ∨ (getColorParser name dv v a).2 = none := by
  simp only [getColorParser]
  repeat' split
  all_goals simp [ok, die]

/-- `splashscreenIconRatio` either leaves the record unchanged or succeeds. -/
theorem ratio_frame (dp : DefaultParams) (v : JVal) (a : Argv) :
    (splashscreenIconRatio dp v a).1 = a ∨ (splashscreenIconRatio dp v a).2 = none := by
  simp only [splashscreenIconRatio]
  repeat' split
  all_goals simp [ok, die]

/-- `output` either leaves the record unchanged or succeeds. -/
theorem output_frame (v : JVal) (a : Argv) :
    (output v a).1 = a ∨ (output v a).2 = none := by
  simp only [output]
  repeat' split
  all_goals simp [ok, die]

/-- `assets` either leaves the record unchanged or succeeds. -/
theorem assets_frame (ml : List String) (v : JVal) (a : Argv) :
    (assets ml v a).1 = a ∨ (assets ml v a).2 = none := by
  simp only [assets]
  repeat' split
  all_goals simp [ok, die]

/-- `icon` never writes a key other than `"icon"`, fatal or not. -/
theorem icon_own_key (env : Env) (v : JVal) (a : Argv) (k : String) (hk : k ≠ "icon") :
    (icon env v a).1 k = a k := by
  simp only [icon]
  repeat' split
  all_goals simp [ok, die, aset, hk]

/-- `background` never writes a key other than `"background"`, fatal or not. -/
theorem background_own_key (env : Env) (v : JVal) (a : Argv) (k : String) (hk : k ≠ "background") :
    (background env v a).1 k = a k := by
  simp only [background]
  repeat' split
  all_goals simp [ok, die, aset, hk]

/-!
Branch lemmas: the exact outcome of each validator on each input shape.
-/

/-- A nonempty string is truthy. -/
theorem truthy_str {s : String} (hs : s ≠ "") : truthy (.str s) = true := by
  simp [truthy, hs]

/-- `mode` on an empty value stores the full catalog. -/
theorem mode_empty (ml : List String) (v : JVal) (a : Argv) (hv : truthy v = false) :
    mode ml v a = ok (aset a "mode" (.arrS ml)) := by
  simp [mode, hv]

/-- `mode` on a list containing `"all"` stores the full catalog. -/
theorem mode_all (ml : List String) (s : String) (a : Argv) (hs : s ≠ "")
    (hall : "all" ∈ jsSplitComma s) :
    mode ml (.str s) a = ok (aset a "mode" (.arrS ml)) := by
  simp [mode, truthy, hs, hall]

/-- `mode` dies on a list without `"all"` holding an unknown entry. -/
theorem mode_unknown (ml : List String) (s : String) (a : Argv) (hs : s ≠ "")
    (hnall : "all" ∉ jsSplitComma s)
    (hunk : ∃ x ∈ jsSplitComma s, x ∉ ml) :
    mode ml (.str s) a = die ("Invalid mode requested: \"" ++ s ++ "\"") a := by
  simp [mode, truthy, hs, hnall, hunk]

/-- `mode` on a list of known entries (no `"all"`) stores the split list. -/
theorem mode_valid (ml : List String) (s : String) (a : Argv) (hs : s ≠ "")
    (hnall : "all" ∉ jsSplitComma s)
    (hv : ∀ x ∈ jsSplitComma s, x ∈ ml) :
    mode ml (.str s) a = ok (aset a "mode" (.arrS (jsSplitComma s))) := by
  simp [mode, truthy, hs, hnall]
  intro x hx hnx
  exact absurd (hv x hx) hnx

/-- `assets` on an empty value stores the empty list. -/
theorem assets_empty (ml : List String) (v : JVal) (a : Argv) (hv : truthy v = false) :
    assets ml v a = ok (aset a "assets" (.arrS [])) := by
  simp [assets, hv]

/-- `assets` on a list containing `"all"` stores the full catalog. -/
theorem assets_all (ml : List String) (s : String) (a : Argv) (hs : s ≠ "")
    (hall : "all" ∈ jsSplitComma s) :
    assets ml (.str s) a = ok (aset a "assets" (.arrS ml)) := by
  simp [assets, truthy, hs, hall]

/-- `assets` dies on a list without `"all"` holding an unknown entry. -/
theorem assets_unknown (ml : List String) (s : String) (a : Argv) (hs : s ≠ "")
    (hnall : "all" ∉ jsSplitComma s)
    (hunk : ∃ x ∈ jsSplitComma s, x ∉ ml) :
    assets ml (.str s) a = die ("Invalid assets requested: \"" ++ s ++ "\"") a := by
  simp [assets, truthy, hs, hnall, hunk]

/-- `assets` on a list of known entries (no `"all"`) stores the split list. -/
theorem assets_valid (ml : List String) (s : String) (a : Argv) (hs : s ≠ "")
    (hnall : "all" ∉ jsSplitComma s)
    (hv : ∀ x ∈ jsSplitComma s, x ∈ ml) :
    assets ml (.str s) a = ok (aset a "assets" (.arrS (jsSplitComma s))) := by
  simp [assets, truthy, hs, hnall]
  intro x hx hnx
  exact absurd (hv x hx) hnx

/-- `include` on an empty value returns the record untouched. -/
theorem include_empty (ml : List String) (v : JVal) (a : Argv) (hv : truthy v = false) :
    include' ml v a = ok a := by
  simp [include', hv]

/-- `include` on an array containing `"all"` DOES store the full catalog. -/
theorem include_arr_all (ml : List String) (l : List String) (a : Argv)
    (hall : "all" ∈ l) :
    include' ml (.arrS l) a = ok (aset a "include" (.arrS ml)) := by
  simp [include', truthy, hall]

/-- `include` dies on an array without `"all"` holding an unknown entry,
leaving the record untouched. -/
theorem include_arr_unknown (ml : List String) (l : List String) (a : Argv)
    (hnall : "all" ∉ l)
    (hunk : ∃ x ∈ l, x ∉ ml) :
    include' ml (.arrS l) a
      = die ("Invalid include requested: \"" ++ String.intercalate "," l ++ "\"") a := by
  simp [include', truthy, hnall, hunk]

/-- `include` on an array of known entries (no `"all"`) validates and then
returns WITHOUT assigning: the record is untouched. -/
theorem include_arr_valid (ml : List String) (l : List String) (a : Argv)
    (hnall : "all" ∉ l)
    (hv : ∀ x ∈ l, x ∈ ml) :
    include' ml (.arrS l) a = ok a := by
  simp [include', truthy, hnall]
  intro x hx hnx
  exact absurd (hv x hx) hnx

/-- `quality` on an empty value stores the default constant. -/
theorem quality_empty (dp : DefaultParams) (v : JVal) (a : Argv) (hv : truthy v = false) :
    quality dp v a = ok (aset a "quality" (.num (dp.quality : Rat))) := by
  simp [quality, hv]

/-- `quality` dies when `parseInt` yields `NaN`. -/
theorem quality_nan (dp : DefaultParams) (s : String) (a : Argv) (hs : s ≠ "")
    (h : parseIntJS s = none) :
    quality dp (.str s) a = die "Invalid quality level number specified" a := by
  simp [quality, truthy, hs, jsToStr, h]

/-- `quality` dies on an integer outside `[1, 12]`. -/
theorem quality_out (dp : DefaultParams) (s : String) (n : Int) (a : Argv) (hs : s ≠ "")
    (h : parseIntJS s = some n) (hout : n < 1 ∨ 12 < n) :
    quality dp (.str s) a
      = die ("Invalid quality level specified (" ++ s ++ ") - should be between 1 - 12") a := by
  simp [quality, truthy, hs, jsToStr, h, hout]

/-- `quality` stores the parsed integer when it lies in `[1, 12]`. -/
theorem quality_ok (dp : DefaultParams) (s : String) (n : Int) (a : Argv) (hs : s ≠ "")
    (h : parseIntJS s = some n) (h1 : 1 ≤ n) (h2 : n ≤ 12) :
    quality dp (.str s) a = ok (aset a "quality" (.num (n : Rat))) := by
  simp [quality, truthy, hs, jsToStr, h]
  intro hbad
  rcases hbad with hb | hb <;> omega

/-- `padding` on an empty value stores `[0, 0]`. -/
theorem padding_empty (v : JVal) (a : Argv) (hv : truthy v = false) :
    padding v a = ok (aset a "padding" (.arrN [0, 0])) := by
  simp [padding, hv]

/-- `padding` dies as soon as more than two values are supplied. -/
theorem padding_too_many (v : JVal) (L : List (Option Int)) (a : Argv)
    (hv : truthy v = true) (h1 : paddingSizes v = some L) (h : 2 < L.length) :
    padding v a = die "Invalid padding specified" a := by
  simp [padding, hv, h1, h]

/-- The `forEach` walk reports an error whenever some element is `NaN` or
negative. -/
theorem checkSizes_isSome_of_bad (l : List (Option Int))
    (h : none ∈ l ∨ ∃ n : Int, some n ∈ l ∧ n < 0) :
    (checkSizes l).isSome = true := by
  induction l with
  | nil =>
    rcases h with h | ⟨n, hn, _⟩
    · simp at h
    · simp at hn
  | cons hd tl ih =>
    cases hd with
    | none => simp [checkSizes]
    | some m =>
      by_cases hm : m < 0
      · simp [checkSizes, hm]
      · have hbad : none ∈ tl ∨ ∃ n : Int, some n ∈ tl ∧ n < 0 := by
          rcases h with h | ⟨n, hn, hneg⟩
          · rcases List.mem_cons.mp h with he | ht
            · simp at he
            · exact Or.inl ht
          · rcases List.mem_cons.mp hn with he | ht
            · have hnm : n = m := by injection he
              exact absurd (hnm ▸ hneg) hm
            · exact Or.inr ⟨n, ht, hneg⟩
        simp only [checkSizes, if_neg hm]
        exact ih hbad

/-- `padding` is fatal (record untouched) whenever some supplied value is
non-numeric or negative. -/
theorem padding_bad (v : JVal) (L : List (Option Int)) (a : Argv)
    (hv : truthy v = true) (h1 : paddingSizes v = some L)
    (h : none ∈ L ∨ ∃ n : Int, some n ∈ L ∧ n < 0) :
    (padding v a).2.isSome = true ∧ (padding v a).1 = a := by
  have hck := checkSizes_isSome_of_bad L h
  have hsome : (padding v a).2.isSome = true := by
    simp only [padding, hv, Bool.true_eq_false, if_false, h1]
    split
    · simp [die]
    · rcases hcs : checkSizes L with _ | msg
      · rw [hcs] at hck
        simp at hck
      · simp [hcs, die]
  exact ⟨hsome, frame_of_disj (padding_frame _ _) hsome⟩

/-- `padding` duplicates a single nonnegative value to both axes. -/
theorem padding_single (v : JVal) (n : Int) (a : Argv)
    (hv : truthy v = true) (h1 : paddingSizes v = some [some n]) (hn : 0 ≤ n) :
    padding v a = ok (aset a "padding" (.arrN [(n : Rat), (n : Rat)])) := by
  simp [padding, hv, h1, checkSizes, not_lt.mpr hn]

/-- `padding` stores two nonnegative values in order. -/
theorem padding_pair (v : JVal) (n m : Int) (a : Argv)
    (hv : truthy v = true) (h1 : paddingSizes v = some [some n, some m])
    (hn : 0 ≤ n) (hm : 0 ≤ m) :
    padding v a = ok (aset a "padding" (.arrN [(n : Rat), (m : Rat)])) := by
  simp [padding, hv, h1, checkSizes, not_lt.mpr hn, not_lt.mpr hm]

/-- A color validator on an empty value stores `argv.themeColor || default`
verbatim: the current `themeColor` entry when truthy, else the default —
with no hex check and no `#` prefix on the copied value. -/
theorem color_empty (name : String) (dv : JVal) (v : JVal) (a : Argv) (hv : truthy v = false) :
    getColorParser name dv v a
      = ok (aset a name (if truthy (a "themeColor") = true then a "themeColor" else dv)) := by
  simp [getColorParser, hv]

/-- A color validator accepts a 3- or 6-character hex string and stores it
prefixed with `#`. -/
theorem color_ok (name : String) (dv : JVal) (s : String) (a : Argv)
    (hlen : s.length = 3 ∨ s.length = 6) (hhex : isHexStr s = true) :
    getColorParser name dv (.str s) a = ok (aset a name (.str ("#" ++ s))) := by
  have hs : s ≠ "" := by
    intro he
    rw [he] at hlen
    simp at hlen
  rcases hlen with h | h <;>
    simp [getColorParser, truthy, hs, jsLength, jsToStr, hhex, h]

/-- A color validator dies on any nonempty value whose length is neither 3
nor 6 or that fails the hex regex. -/
theorem color_bad (name : String) (dv : JVal) (s : String) (a : Argv) (hs : s ≠ "")
    (hbad : (s.length ≠ 3 ∧ s.length ≠ 6) ∨ isHexStr s = false) :
    getColorParser name dv (.str s) a
      = die ("Invalid " ++ name ++ " color specified: \"" ++ s ++ "\"") a := by
  rcases hbad with ⟨h3, h6⟩ | hx
  · simp [getColorParser, truthy, hs, jsLength, jsToStr, h3, h6]
  · simp [getColorParser, truthy, hs, jsLength, jsToStr, hx]

/-- `splashscreenIconRatio` on an empty value other than the number `0`
stores the default constant. -/
theorem ratio_empty (dp : DefaultParams) (v : JVal) (a : Argv)
    (hv : truthy v = false) (h0 : v ≠ .num 0) :
    splashscreenIconRatio dp v a
      = ok (aset a "splashscreenIconRatio" (.num dp.splashscreenIconRatio)) := by
  simp [splashscreenIconRatio, hv, h0]

/-- The number `0` is NOT treated as empty: it parses and is stored as `0`. -/
theorem ratio_zero (dp : DefaultParams) (a : Argv) :
    splashscreenIconRatio dp (.num 0) a = ok (aset a "splashscreenIconRatio" (.num 0)) := by
  have h : parseFloatJS (jsToStr (.num 0)) = some 0 := by decide
  simp [splashscreenIconRatio, h]

/-- `splashscreenIconRatio` dies when `parseFloat` yields `NaN`. -/
theorem ratio_str_nan (dp : DefaultParams) (s : String) (a : Argv) (hs : s ≠ "")
    (h : parseFloatJS s = none) :
    splashscreenIconRatio dp (.str s) a
      = die "Invalid splashscreen icon ratio number specified" a := by
  simp [splashscreenIconRatio, truthy, hs, jsToStr, h]

/-- `splashscreenIconRatio` dies on a number outside `[0, 100]`. -/
theorem ratio_str_out (dp : DefaultParams) (s : String) (q : Rat) (a : Argv) (hs : s ≠ "")
    (h : parseFloatJS s = some q) (hout : q < 0 ∨ 100 < q) :
    splashscreenIconRatio dp (.str s) a
      = die ("Invalid splashscreen icon ratio specified (" ++ s
          ++ ") - should be between 0 - 100") a := by
  simp [splashscreenIconRatio, truthy, hs, jsToStr, h, hout]

/-- `splashscreenIconRatio` stores the parsed number when it lies in
`[0, 100]`. -/
theorem ratio_str_ok (dp : DefaultParams) (s : String) (q : Rat) (a : Argv) (hs : s ≠ "")
    (h : parseFloatJS s = some q) (h1 : 0 ≤ q) (h2 : q ≤ 100) :
    splashscreenIconRatio dp (.str s) a
      = ok (aset a "splashscreenIconRatio" (.num q)) := by
  simp [splashscreenIconRatio, truthy, hs, jsToStr, h, not_lt.mpr h1, not_lt.mpr h2]

/-!
Claim theorems.
-/

/-- C1 counterexample: `background` in an environment where the path does
not exist dies, yet the record already holds the resolved (unvalidated)
path at that moment — a value was stored for the field although its
validation failed, contradicting the claim as stated. -/
theorem C1_counterexample :
    (background envNoFS (.str "bg.png") emptyArgv).2.isSome = true ∧
    (background envNoFS (.str "bg.png") emptyArgv).1 "background" = .str "/app/bg.png" ∧
    emptyArgv "background" = JVal.undef := by
  refine ⟨by decide, by decide, by decide⟩

/-- C1 (amended): for every validator except `icon` and `background`, a
fatal validation error leaves the output record exactly unchanged, so no
value has been stored for the failing field; `icon` and `background`
assign the candidate path before their existence/PNG-size checks, but even
they never write any key other than their own. -/
theorem C1_fatal_leaves_record (env : Env) (dp : DefaultParams) (ml gl : List String)
    (name : String) (dv : JVal) (v : JVal) (a : Argv) :
    ((profile env v a).2.isSome = true → (profile env v a).1 = a) ∧
    ((mode ml v a).2.isSome = true → (mode ml v a).1 = a) ∧
    ((include' ml v a).2.isSome = true → (include' ml v a).1 = a) ∧
    ((quality dp v a).2.isSome = true → (quality dp v a).1 = a) ∧
    ((filter gl v a).2.isSome = true → (filter gl v a).1 = a) ∧
    ((padding v a).2.isSome = true → (padding v a).1 = a) ∧
    ((getColorParser name dv v a).2.isSome = true → (getColorParser name dv v a).1 = a) ∧
    ((splashscreenIconRatio dp v a).2.isSome = true → (splashscreenIconRatio dp v a).1 = a) ∧
    ((output v a).2.isSome = true → (output v a).1 = a) ∧
    ((assets ml v a).2.isSome = true → (assets ml v a).1 = a) ∧
    (∀ k, k ≠ "icon" → (icon env v a).1 k = a k) ∧
    (∀ k, k ≠ "background" → (background env v a).1 k = a k) :=
  ⟨frame_of_disj (profile_frame env v a),
   frame_of_disj (mode_frame ml v a),
   frame_of_disj (include_frame ml v a),
   frame_of_disj (quality_frame dp v a),
   frame_of_disj (filter_frame gl v a),
   frame_of_disj (padding_frame v a),
   frame_of_disj (color_frame name dv v a),
   frame_of_disj (ratio_frame dp v a),
   frame_of_disj (output_frame v a),
   frame_of_disj (assets_frame ml v a),
   fun k hk => icon_own_key env v a k hk,
   fun k hk => background_own_key env v a k hk⟩

/-- C1 witness: `mode` on the unknown entry `"zzz"` dies and the record is
exactly unchanged. -/
theorem C1_fatal_leaves_record_witness :
    (mode ml0 (.str "zzz") emptyArgv).1 = emptyArgv :=
  (C1_fatal_leaves_record envNoFS dp0 ml0 [] "pngColor" JVal.undef
    (.str "zzz") emptyArgv).2.1 (by decide)

/-- C2: for both `mode` and `assets`, on any nonempty comma-separated
input, `"all"` anywhere in the split list stores the full Mode Catalog
regardless of the other entries present, and on a list without `"all"` any
unknown entry is fatal (record unchanged) even when valid entries precede
it. -/
theorem C2_mode_assets_all_and_unknown (modesList : List String) (s : String) (argv : Argv)
    (hs : s ≠ "") :
    ("all" ∈ jsSplitComma s →
      mode modesList (.str s) argv = ok (aset argv "mode" (.arrS modesList)) ∧
      assets modesList (.str s) argv = ok (aset argv "assets" (.arrS modesList))) ∧
    ("all" ∉ jsSplitComma s → (∃ x ∈ jsSplitComma s, x ∉ modesList) →
      ((mode modesList (.str s) argv).2.isSome = true ∧
        (mode modesList (.str s) argv).1 = argv) ∧
      ((assets modesList (.str s) argv).2.isSome = true ∧
        (assets modesList (.str s) argv).1 = argv)) := by
  constructor
  · intro hall
    exact ⟨mode_all _ _ _ hs hall, assets_all _ _ _ hs hall⟩
  · intro hnall hunk
    refine ⟨⟨?_, ?_⟩, ⟨?_, ?_⟩⟩
    · rw [mode_unknown _ _ _ hs hnall hunk]
      rfl
    · rw [mode_unknown _ _ _ hs hnall hunk]
      rfl
    · rw [assets_unknown _ _ _ hs hnall hunk]
      rfl
    · rw [assets_unknown _ _ _ hs hnall hunk]
      rfl

/-- C2 witness: with catalog `["spa", "pwa"]`, `"all,zzz"` stores the full
catalog in both validators (despite the unknown entry `"zzz"`), and
`"spa,zzz"` is fatal for both with the record unchanged. -/
theorem C2_mode_assets_witness :
    (mode ml0 (.str "all,zzz") emptyArgv = ok (aset emptyArgv "mode" (.arrS ml0)) ∧
      assets ml0 (.str "all,zzz") emptyArgv = ok (aset emptyArgv "assets" (.arrS ml0))) ∧
    ((mode ml0 (.str "spa,zzz") emptyArgv).2.isSome = true ∧
      (mode ml0 (.str "spa,zzz") emptyArgv).1 = emptyArgv) ∧
    ((assets ml0 (.str "spa,zzz") emptyArgv).2.isSome = true ∧
      (assets ml0 (.str "spa,zzz") emptyArgv).1 = emptyArgv) := by
  refine ⟨?_, ?_, ?_⟩
  · exact (C2_mode_assets_all_and_unknown ml0 "all,zzz" emptyArgv (by decide)).1 (by decide)
  · exact ((C2_mode_assets_all_and_unknown ml0 "spa,zzz" emptyArgv (by decide)).2
      (by decide) (by decide)).1
  · exact ((C2_mode_assets_all_and_unknown ml0 "spa,zzz" emptyArgv (by decide)).2
      (by decide) (by decide)).2

/-- C3 counterexample: `include` with the array `["all"]` DOES assign — the
stored `include` entry becomes the full catalog while the claim says the
record is unchanged for all inputs, including lists containing `"all"`. -/
theorem C3_counterexample :
    (include' ml0 (.arrS ["all"]) emptyArgv).2 = none ∧
    (include' ml0 (.arrS ["all"]) emptyArgv).1 "include" = .arrS ml0 ∧
    emptyArgv "include" ≠ .arrS ml0 := by
  refine ⟨by decide, by decide, by decide⟩

/-- C3 (amended): `include` stores the full Mode Catalog when the array
input contains `"all"`; in every other array case it assigns nothing — an
unknown entry is fatal with the record unchanged, and a fully valid list
is validated and then discarded, leaving the record untouched. -/
theorem C3_include_discards_except_all (modesList : List String) (l : List String)
    (argv : Argv) :
    ("all" ∈ l →
      include' modesList (.arrS l) argv = ok (aset argv "include" (.arrS modesList))) ∧
    ("all" ∉ l → (∃ x ∈ l, x ∉ modesList) →
      (include' modesList (.arrS l) argv).2.isSome = true ∧
      (include' modesList (.arrS l) argv).1 = argv) ∧
    ("all" ∉ l → (∀ x ∈ l, x ∈ modesList) →
      include' modesList (.arrS l) argv = ok argv) := by
  refine ⟨fun hall => include_arr_all _ _ _ hall,
    fun hnall hunk => ?_,
    fun hnall hv => include_arr_valid _ _ _ hnall hv⟩
  rw [include_arr_unknown _ _ _ hnall hunk]
  exact ⟨rfl, rfl⟩

/-- C3 witness: a valid non-`"all"` list is discarded (record untouched),
while `["all"]` stores the full catalog. -/
theorem C3_include_witness :
    include' ml0 (.arrS ["spa"]) emptyArgv = ok emptyArgv ∧
    include' ml0 (.arrS ["all"]) emptyArgv = ok (aset emptyArgv "include" (.arrS ml0)) :=
  ⟨(C3_include_discards_except_all ml0 ["spa"] emptyArgv).2.2 (by decide) (by decide),
   (C3_include_discards_except_all ml0 ["all"] emptyArgv).1 (by decide)⟩

/-- C4: each of the four color fields, registered with its default exactly
as in the `parsers` table, stores on empty input the record's current
`themeColor` value when truthy, and otherwise its own field-specific
default (`themeColor` itself has no default: `undefined`). -/
theorem C4_color_empty_fallback (dp : DefaultParams) (v : JVal) (argv : Argv)
    (hv : truthy v = false) :
    getColorParser "themeColor" JVal.undef v argv
      = ok (aset argv "themeColor"
          (if truthy (argv "themeColor") = true then argv "themeColor" else JVal.undef)) ∧
    getColorParser "pngColor" (.str dp.pngColor) v argv
      = ok (aset argv "pngColor"
          (if truthy (argv "themeColor") = true then argv "themeColor" else .str dp.pngColor)) ∧
    getColorParser "splashscreenColor" (.str dp.splashscreenColor) v argv
      = ok (aset argv "splashscreenColor"
          (if truthy (argv "themeColor") = true then argv "themeColor"
           else .str dp.splashscreenColor)) ∧
    getColorParser "svgColor" (.str dp.svgColor) v argv
      = ok (aset argv "svgColor"
          (if truthy (argv "themeColor") = true then argv "themeColor" else .str dp.svgColor)) :=
  ⟨color_empty _ _ _ _ hv, color_empty _ _ _ _ hv,
   color_empty _ _ _ _ hv, color_empty _ _ _ _ hv⟩

/-- C4 witness: with a resolved `themeColor` of `"#fff"` in the record, an
empty `pngColor` input stores `"#fff"`, not the `pngColor` default. -/
theorem C4_color_empty_fallback_witness :
    getColorParser "pngColor" (.str dp0.pngColor) JVal.undef
        (aset emptyArgv "themeColor" (.str "#fff"))
      = ok (aset (aset emptyArgv "themeColor" (.str "#fff")) "pngColor" (.str "#fff")) := by
  have h := (C4_color_empty_fallback dp0 JVal.undef
    (aset emptyArgv "themeColor" (.str "#fff")) (by decide)).2.1
  simpa [aset, truthy] using h

/-- C5: `quality` stores the default on empty input; otherwise the value
goes through `parseInt`, dying on `NaN` and on integers outside `[1, 12]`
with the record unchanged; in particular `"0"` and `"13"` are fatal while
`"1"` and `"12"` are accepted and stored as the numbers 1 and 12. -/
theorem C5_quality (dp : DefaultParams) (argv : Argv) :
    (∀ v, truthy v = false →
      quality dp v argv = ok (aset argv "quality" (.num (dp.quality : Rat)))) ∧
    (∀ s, s ≠ "" → parseIntJS s = none →
      quality dp (.str s) argv = die "Invalid quality level number specified" argv) ∧
    (∀ s n, s ≠ "" → parseIntJS s = some n → (n < 1 ∨ 12 < n) →
      (quality dp (.str s) argv).2.isSome = true ∧ (quality dp (.str s) argv).1 = argv) ∧
    (∀ s n, s ≠ "" → parseIntJS s = some n → 1 ≤ n → n ≤ 12 →
      quality dp (.str s) argv = ok (aset argv "quality" (.num (n : Rat)))) ∧
    (quality dp (.str "0") argv).2.isSome = true ∧
    (quality dp (.str "13") argv).2.isSome = true ∧
    quality dp (.str "1") argv = ok (aset argv "quality" (.num 1)) ∧
    quality dp (.str "12") argv = ok (aset argv "quality" (.num 12)) := by
  refine ⟨fun v hv => quality_empty dp v argv hv,
    fun s hs h => quality_nan dp s argv hs h,
    fun s n hs h hout => ?_,
    fun s n hs h h1 h2 => quality_ok dp s n argv hs h h1 h2,
    ?_, ?_, ?_, ?_⟩
  · rw [quality_out dp s n argv hs h hout]
    exact ⟨rfl, rfl⟩
  · rw [quality_out dp "0" 0 argv (by decide) (by decide) (by norm_num)]
    rfl
  · rw [quality_out dp "13" 13 argv (by decide) (by decide) (by norm_num)]
    rfl
  · have h := quality_ok dp "1" 1 argv (by decide) (by decide) (by norm_num) (by norm_num)
    simpa using h
  · have h := quality_ok dp "12" 12 argv (by decide) (by decide) (by norm_num) (by norm_num)
    simpa using h

/-- C5 witness: on an empty value the default is stored, and on `"12"` the
number 12 is stored. -/
theorem C5_quality_witness :
    quality dp0 JVal.undef emptyArgv = ok (aset emptyArgv "quality" (.num (dp0.quality : Rat))) ∧
    quality dp0 (.str "12") emptyArgv = ok (aset emptyArgv "quality" (.num 12)) :=
  ⟨(C5_quality dp0 emptyArgv).1 JVal.undef (by decide),
   (C5_quality dp0 emptyArgv).2.2.2.2.2.2.2⟩

/-- C6: `padding` stores `[0, 0]` on empty input; every string or array
input (the second/third conjunct quantifies over any value the source's
`Array.isArray(value) ? value : value.split(',')` mapping accepts, and the
next three conjuncts pin that mapping down for strings, string arrays and
numeric arrays) is mapped element-wise through `parseInt` and is fatal
(record unchanged) when it has more than two values or any `NaN` or
negative value; one nonnegative value is duplicated to both axes and two
are stored in order — so `"5"` and `["5"]` normalize to `[5, 5]`,
`"5,10"` and `[5, 10]` to `[5, 10]`, while `"5,10,15"`, `[5, 10, 15]`,
`"-1,2"`, `[-1, 2]` and the non-numeric `["x", "2"]` are fatal. -/
theorem C6_padding (argv : Argv) :
    (∀ v, truthy v = false → padding v argv = ok (aset argv "padding" (.arrN [0, 0]))) ∧
    (∀ v L, paddingSizes v = some L → truthy v = true →
      (2 < L.length → padding v argv = die "Invalid padding specified" argv) ∧
      ((none ∈ L ∨ ∃ n : Int, some n ∈ L ∧ n < 0) →
        (padding v argv).2.isSome = true ∧ (padding v argv).1 = argv) ∧
      (∀ n : Int, L = [some n] → 0 ≤ n →
        padding v argv = ok (aset argv "padding" (.arrN [(n : Rat), (n : Rat)]))) ∧
      (∀ n m : Int, L = [some n, some m] → 0 ≤ n → 0 ≤ m →
        padding v argv = ok (aset argv "padding" (.arrN [(n : Rat), (m : Rat)])))) ∧
    (∀ s : String, paddingSizes (.str s) = some ((jsSplitComma s).map parseIntJS)) ∧
    (∀ l : List String, paddingSizes (.arrS l) = some (l.map parseIntJS)) ∧
    (∀ l : List Rat,
      paddingSizes (.arrN l) = some (l.map (fun q => parseIntJS (numToStr q)))) ∧
    padding (.str "5") argv = ok (aset argv "padding" (.arrN [5, 5])) ∧
    padding (.str "5,10") argv = ok (aset argv "padding" (.arrN [5, 10])) ∧
    (padding (.str "5,10,15") argv).2.isSome = true ∧
    (padding (.str "-1,2") argv).2.isSome = true ∧
    padding (.arrS ["5"]) argv = ok (aset argv "padding" (.arrN [5, 5])) ∧
    padding (.arrN [5, 10]) argv = ok (aset argv "padding" (.arrN [5, 10])) ∧
    (padding (.arrN [5, 10, 15]) argv).2.isSome = true ∧
    (padding (.arrS ["x", "2"]) argv).2.isSome = true ∧
    (padding (.arrN [-1, 2]) argv).2.isSome = true := by
  refine ⟨fun v hv => padding_empty v argv hv,
    fun v L h1 hv =>
      ⟨fun hlen => padding_too_many v L argv hv h1 hlen,
       fun hbad => padding_bad v L argv hv h1 hbad,
       fun n hL hn => padding_single v n argv hv (hL ▸ h1) hn,
       fun n m hL hn hm => padding_pair v n m argv hv (hL ▸ h1) hn hm⟩,
    fun s => rfl, fun l => rfl, fun l => rfl,
    ?_, ?_, ?_, ?_, ?_, ?_, ?_, ?_, ?_⟩
  · have h := padding_single (.str "5") 5 argv (by decide) (by decide) (by norm_num)
    simpa using h
  · have h := padding_pair (.str "5,10") 5 10 argv (by decide) (by decide)
      (by norm_num) (by norm_num)
    simpa using h
  · rw [padding_too_many (.str "5,10,15") [some 5, some 10, some 15] argv
      (by decide) (by decide) (by norm_num)]
    rfl
  · exact (padding_bad (.str "-1,2") [some (-1), some 2] argv (by decide) (by decide)
      (Or.inr ⟨-1, by decide, by norm_num⟩)).1
  · have h := padding_single (.arrS ["5"]) 5 argv (by decide) (by decide) (by norm_num)
    simpa using h
  · have h := padding_pair (.arrN [5, 10]) 5 10 argv (by decide) (by decide)
      (by norm_num) (by norm_num)
    simpa using h
  · rw [padding_too_many (.arrN [5, 10, 15]) [some 5, some 10, some 15] argv
      (by decide) (by decide) (by norm_num)]
    rfl
  · exact (padding_bad (.arrS ["x", "2"]) [none, some 2] argv (by decide) (by decide)
      (Or.inl (by decide))).1
  · exact (padding_bad (.arrN [-1, 2]) [some (-1), some 2] argv (by decide) (by decide)
      (Or.inr ⟨-1, by decide, by norm_num⟩)).1

/-- C6 witness: `"5"` and the array `["5"]` store `[5, 5]`, the numeric
array `[5, 10]` stores `[5, 10]`, `[5, 10, 15]` is fatal, and the general
clause applied at the concrete array `["7"]` stores `[7, 7]`. -/
theorem C6_padding_witness :
    padding (.str "5") emptyArgv = ok (aset emptyArgv "padding" (.arrN [5, 5])) ∧
    padding (.arrS ["5"]) emptyArgv = ok (aset emptyArgv "padding" (.arrN [5, 5])) ∧
    padding (.arrN [5, 10]) emptyArgv = ok (aset emptyArgv "padding" (.arrN [5, 10])) ∧
    (padding (.arrN [5, 10, 15]) emptyArgv).2.isSome = true ∧
    padding (.arrS ["7"]) emptyArgv = ok (aset emptyArgv "padding" (.arrN [7, 7])) := by
  obtain ⟨-, hgen, -, -, -, h5, -, -, -, ha5, ha510, ha3, -, -⟩ := C6_padding emptyArgv
  refine ⟨h5, ha5, ha510, ha3, ?_⟩
  have h := (hgen (.arrS ["7"]) [some 7] (by decide) (by decide)).2.2.1 7 rfl (by norm_num)
  simpa using h

/-- C7: a color validator on any nonempty string stores `'#' + value` when
the value is a 3- or 6-character hex string, and is fatal (record
unchanged) on any other value — `"fff"`/`"ffffff"` normalize to
`"#fff"`/`"#ffffff"`, while `"ff"` (wrong length) and `"gggggg"`
(non-hex) die. -/
theorem C7_color_nonempty (name : String) (dv : JVal) (argv : Argv) :
    (∀ s, (s.length = 3 ∨ s.length = 6) → isHexStr s = true →
      getColorParser name dv (.str s) argv = ok (aset argv name (.str ("#" ++ s)))) ∧
    (∀ s, s ≠ "" → ((s.length ≠ 3 ∧ s.length ≠ 6) ∨ isHexStr s = false) →
      (getColorParser name dv (.str s) argv).2.isSome = true ∧
      (getColorParser name dv (.str s) argv).1 = argv) ∧
    getColorParser name dv (.str "fff") argv = ok (aset argv name (.str "#fff")) ∧
    getColorParser name dv (.str "ffffff") argv = ok (aset argv name (.str "#ffffff")) ∧
    (getColorParser name dv (.str "ff") argv).2.isSome = true ∧
    (getColorParser name dv (.str "gggggg") argv).2.isSome = true := by
  refine ⟨fun s hlen hhex => color_ok name dv s argv hlen hhex,
    fun s hs hbad => ?_, ?_, ?_, ?_, ?_⟩
  · rw [color_bad name dv s argv hs hbad]
    exact ⟨rfl, rfl⟩
  · exact color_ok name dv "fff" argv (by decide) (by decide)
  · exact color_ok name dv "ffffff" argv (by decide) (by decide)
  · rw [color_bad name dv "ff" argv (by decide) (by decide)]
    rfl
  · rw [color_bad name dv "gggggg" argv (by decide) (by decide)]
    rfl

/-- C7 witness: `"fff"` is stored as `"#fff"` and `"ff"` is fatal. -/
theorem C7_color_nonempty_witness :
    getColorParser "pngColor" (.str dp0.pngColor) (.str "fff") emptyArgv
      = ok (aset emptyArgv "pngColor" (.str "#fff")) ∧
    (getColorParser "pngColor" (.str dp0.pngColor) (.str "ff") emptyArgv).2.isSome = true :=
  ⟨(C7_color_nonempty "pngColor" (.str dp0.pngColor) emptyArgv).2.2.1,
   (C7_color_nonempty "pngColor" (.str dp0.pngColor) emptyArgv).2.2.2.2.1⟩

/-- C8: the color validators are not idempotent at the round-trip
boundary: a 3- or 6-character hex value `v` is stored as `'#' + v`, but
feeding `'#' + v` back in fails the length/charset check (its length is 4
or 7), so re-validation of an already-normalized value is fatal and stores
nothing. -/
theorem C8_color_not_idempotent (name : String) (dv : JVal) (s : String)
    (argv argv2 : Argv) (hlen : s.length = 3 ∨ s.length = 6) (hhex : isHexStr s = true) :
    getColorParser name dv (.str s) argv = ok (aset argv name (.str ("#" ++ s))) ∧
    (getColorParser name dv (.str ("#" ++ s)) argv2).2.isSome = true ∧
    (getColorParser name dv (.str ("#" ++ s)) argv2).1 = argv2 := by
  refine ⟨color_ok name dv s argv hlen hhex, ?_⟩
  have hlen2 : ("#" ++ s).length = 1 + s.length := by
    rw [String.length_append]
    rw [show "#".length = 1 from rfl]
  have hs2 : ("#" ++ s) ≠ "" := by
    intro he
    have := congrArg String.length he
    rw [hlen2] at this
    simp at this
  have hbad : (("#" ++ s).length ≠ 3 ∧ ("#" ++ s).length ≠ 6)
      ∨ isHexStr ("#" ++ s) = false := by
    left
    rw [hlen2]
    rcases hlen with h | h <;> rw [h] <;> omega
  rw [color_bad name dv _ argv2 hs2 hbad]
  exact ⟨rfl, rfl⟩

/-- C8 witness: `"fff"` normalizes to `"#fff"`, and re-validating `"#fff"`
is fatal with the record unchanged. -/
theorem C8_color_not_idempotent_witness :
    getColorParser "pngColor" (.str dp0.pngColor) (.str "fff") emptyArgv
      = ok (aset emptyArgv "pngColor" (.str "#fff")) ∧
    (getColorParser "pngColor" (.str dp0.pngColor) (.str "#fff") emptyArgv).2.isSome = true ∧
    (getColorParser "pngColor" (.str dp0.pngColor) (.str "#fff") emptyArgv).1 = emptyArgv :=
  C8_color_not_idempotent "pngColor" (.str dp0.pngColor) "fff" emptyArgv emptyArgv
    (by decide) (by decide)

/-- C9: the ratio validator accepts the number `0` and stores `0` (the
guard `!value && value !== 0` keeps it out of the empty branch); an
absent/empty value stores the default constant; otherwise `parseFloat`,
fatal on `NaN` and outside `[0, 100]` with the record unchanged — in
particular `"101"` and `"-1"` are fatal. -/
theorem C9_splashscreen_ratio (dp : DefaultParams) (argv : Argv) :
    splashscreenIconRatio dp (.num 0) argv
      = ok (aset argv "splashscreenIconRatio" (.num 0)) ∧
    (∀ v, truthy v = false → v ≠ .num 0 →
      splashscreenIconRatio dp v argv
        = ok (aset argv "splashscreenIconRatio" (.num dp.splashscreenIconRatio))) ∧
    (∀ s, s ≠ "" → parseFloatJS s = none →
      splashscreenIconRatio dp (.str s) argv
        = die "Invalid splashscreen icon ratio number specified" argv) ∧
    (∀ s q, s ≠ "" → parseFloatJS s = some q → (q < 0 ∨ 100 < q) →
      (splashscreenIconRatio dp (.str s) argv).2.isSome = true ∧
      (splashscreenIconRatio dp (.str s) argv).1 = argv) ∧
    (∀ s q, s ≠ "" → parseFloatJS s = some q → 0 ≤ q → q ≤ 100 →
      splashscreenIconRatio dp (.str s) argv
        = ok (aset argv "splashscreenIconRatio" (.num q))) ∧
    (splashscreenIconRatio dp (.str "101") argv).2.isSome = true ∧
    (splashscreenIconRatio dp (.str "-1") argv).2.isSome = true := by
  refine ⟨ratio_zero dp argv,
    fun v hv h0 => ratio_empty dp v argv hv h0,
    fun s hs h => ratio_str_nan dp s argv hs h,
    fun s q hs h hout => ?_,
    fun s q hs h h1 h2 => ratio_str_ok dp s q argv hs h h1 h2,
    ?_, ?_⟩
  · rw [ratio_str_out dp s q argv hs h hout]
    exact ⟨rfl, rfl⟩
  · rw [ratio_str_out dp "101" 101 argv (by decide) (by decide) (by norm_num)]
    rfl
  · rw [ratio_str_out dp "-1" (-1) argv (by decide) (by decide) (by norm_num)]
    rfl

/-- C9 witness: the number `0` is stored as `0`, and `"101"` is fatal. -/
theorem C9_splashscreen_ratio_witness :
    splashscreenIconRatio dp0 (.num 0) emptyArgv
      = ok (aset emptyArgv "splashscreenIconRatio" (.num 0)) ∧
    (splashscreenIconRatio dp0 (.str "101") emptyArgv).2.isSome = true :=
  ⟨(C9_splashscreen_ratio dp0 emptyArgv).1,
   (C9_splashscreen_ratio dp0 emptyArgv).2.2.2.2.2.1⟩

/-- C10: `parseArgv` passes the same record as raw input and output, so a
color field other than `themeColor` validated with an empty value stores a
verbatim copy of whatever the record's `themeColor` entry holds at that
moment — however raw or invalid — with no hex check and no `#` prefix;
only when that entry is falsy does the field default apply. -/
theorem C10_color_alias_copy (env : Env) (dp : DefaultParams) (ml gl : List String)
    (argv : Argv) :
    (truthy (argv "pngColor") = false →
      parseArgv env dp ml gl argv ["pngColor"]
        = ok (aset argv "pngColor"
            (if truthy (argv "themeColor") = true then argv "themeColor"
             else .str dp.pngColor))) ∧
    (truthy (argv "splashscreenColor") = false →
      parseArgv env dp ml gl argv ["splashscreenColor"]
        = ok (aset argv "splashscreenColor"
            (if truthy (argv "themeColor") = true then argv "themeColor"
             else .str dp.splashscreenColor))) ∧
    (truthy (argv "svgColor") = false →
      parseArgv env dp ml gl argv ["svgColor"]
        = ok (aset argv "svgColor"
            (if truthy (argv "themeColor") = true then argv "themeColor"
             else .str dp.svgColor))) := by
  refine ⟨fun h => ?_, fun h => ?_, fun h => ?_⟩ <;>
    · simp only [parseArgv, parsers]
      rw [color_empty _ _ _ _ h]
      simp [ok, parseArgv]

/-- C10 witness: with a raw, never-validated `themeColor` of
`"zz-not-a-color!"` already sitting in the record, an empty `pngColor`
input copies it verbatim — no hex check, no `#` prefix. -/
theorem C10_color_alias_copy_witness :
    parseArgv envNoFS dp0 ml0 [] (aset emptyArgv "themeColor" (.str "zz-not-a-color!"))
        ["pngColor"]
      = ok (aset (aset emptyArgv "themeColor" (.str "zz-not-a-color!")) "pngColor"
          (.str "zz-not-a-color!")) := by
  have h := (C10_color_alias_copy envNoFS dp0 ml0 []
    (aset emptyArgv "themeColor" (.str "zz-not-a-color!"))).1 (by decide)
  simpa [aset, truthy] using h
